import Mathlib

/-!
Verification of the RL traffic-engineering decision loop
(`src/RL/flow_manager.py` and `src/RL/rl_env.py`).

Modelling conventions (shallow embedding):
* Python floats are modelled by `ℚ` wherever the computation only involves
  finite values; `np.mean` over rationals is exact (no rounding is modelled).
  Degenerate IEEE values (NaN/Inf) are modelled separately by `PFloat` where
  a claim is about them.
* Python dicts are modelled by insertion-ordered association lists with
  overwrite-in-place semantics (`dinsert` / `dget`), matching Python 3.7+
  dict iteration order.
* Python exceptions are modelled by `Except`: a fallible telemetry call
  returns `Except Unit v`; a `try/except` around per-item work becomes a
  `match` that maps `.error` to the handler's value.
* `int(x)` on a float truncates toward zero (`pytrunc`); a Python slice
  `xs[:k]` for an `int` k (possibly negative) is `pySliceTo`.
* `sorted(..., key=score, reverse=True)` / `list.sort(...)` are stable:
  equal keys keep their original relative order.  `sortDesc` (insertion
  sort) implements exactly that contract.
-/

/-- Truncation toward zero, the semantics of Python `int(float)`. -/
def pytrunc (q : ℚ) : ℤ := if 0 ≤ q then q.floor else q.ceil

/-- Python slice `xs[:k]` for an arbitrary integer `k`:
nonnegative `k` takes the first `k` elements, negative `k` drops the
last `-k` elements. -/
def pySliceTo {α : Type} (xs : List α) (k : ℤ) : List α :=
  if 0 ≤ k then xs.take k.toNat else xs.take ((xs.length : ℤ) + k).toNat

/-- First-match lookup in an association list (Python dict `d.get(k)` /
`d[k]` when the key layout has no duplicates). -/
def dget {α β : Type} [DecidableEq α] : List (α × β) → α → Option β
  | [], _ => none
  | (k0, v0) :: t, k => if k = k0 then some v0 else dget t k

/-- Python dict assignment `d[k] = v`: overwrite in place if the key is
present (keeping its original position), else append at the end. -/
def dinsert {α β : Type} [DecidableEq α] : List (α × β) → α → β → List (α × β)
  | [], k, v => [(k, v)]
  | (k0, v0) :: t, k, v =>
      if k = k0 then (k0, v) :: t else (k0, v0) :: dinsert t k v

/-- Keys of an association list are pairwise distinct. -/
def NodupKeys {α β : Type} (d : List (α × β)) : Prop := (d.map Prod.fst).Nodup

/-- Build a dict by iterating `d[k] = f k` over `keys` (a Python
comprehension / update loop whose value depends only on the key). -/
def buildDict {α β : Type} [DecidableEq α] (keys : List α) (f : α → β)
    (init : List (α × β)) : List (α × β) :=
  keys.foldl (fun d k => dinsert d k (f k)) init

/-- Python `max(list)` for a nonempty list; the `[]` case never arises at
the call sites that use this helper (they are guarded by a nonemptiness
test), and is given the dummy value 0. -/
def maxD (l : List ℚ) : ℚ :=
  match l with
  | [] => 0
  | h :: t => t.foldl max h

/-- `np.mean` over exact rationals: `none` models the NaN that numpy
returns (with a warning, without raising) on an empty input. -/
def npMean (l : List ℚ) : Option ℚ :=
  match l with
  | [] => none
  | _ => some (l.sum / (l.length : ℚ))

/-- One step of a stable descending insertion sort: `x` is placed before
the first element whose score is not greater than `x`'s, so equal scores
keep their original relative order when the whole list is folded from the
right. -/
def insertDesc {α : Type} (x : α × ℚ) : List (α × ℚ) → List (α × ℚ)
  | [] => [x]
  | h :: t => if x.2 < h.2 then h :: insertDesc x t else x :: h :: t

/-- Stable sort by descending score, the contract of Python's
`sorted(items, key=lambda p: p[1], reverse=True)`. -/
def sortDesc {α : Type} (l : List (α × ℚ)) : List (α × ℚ) :=
  l.foldr insertDesc []

theorem insertDesc_perm {α : Type} (x : α × ℚ) (l : List (α × ℚ)) :
    List.Perm (insertDesc x l) (x :: l) := by
  induction l with
  | nil => simp [insertDesc]
  | cons h t ih =>
      by_cases hc : x.2 < h.2
      · simp only [insertDesc, if_pos hc]
        exact ((ih.cons h).trans (List.Perm.swap x h t))
      · simp [insertDesc, if_neg hc]

theorem sortDesc_perm {α : Type} (l : List (α × ℚ)) :
    List.Perm (sortDesc l) l := by
  induction l with
  | nil => exact List.Perm.refl []
  | cons h t ih =>
      exact (insertDesc_perm h (sortDesc t)).trans (ih.cons h)

theorem insertDesc_pairwise {α : Type} (x : α × ℚ) (l : List (α × ℚ))
    (hl : l.Pairwise (fun a b => b.2 ≤ a.2)) :
    (insertDesc x l).Pairwise (fun a b => b.2 ≤ a.2) := by
  induction l with
  | nil => simp [insertDesc]
  | cons h t ih =>
      rcases List.pairwise_cons.mp hl with ⟨hh, ht⟩
      by_cases hc : x.2 < h.2
      · simp only [insertDesc, if_pos hc]
        refine List.pairwise_cons.mpr ⟨?_, ih ht⟩
        intro b hb
        have hb' : b ∈ x :: t := (insertDesc_perm x t).mem_iff.mp hb
        rcases List.mem_cons.mp hb' with hbx | hbt
        · exact hbx ▸ le_of_lt hc
        · exact hh b hbt
      · push_neg at hc
        simp only [insertDesc, if_neg (not_lt.mpr hc)]
        refine List.pairwise_cons.mpr ⟨?_, hl⟩
        intro b hb
        rcases List.mem_cons.mp hb with hbh | hbt
        · exact hbh ▸ hc
        · exact le_trans (hh b hbt) hc

theorem sortDesc_pairwise {α : Type} (l : List (α × ℚ)) :
    (sortDesc l).Pairwise (fun a b => b.2 ≤ a.2) := by
  induction l with
  | nil => exact List.Pairwise.nil
  | cons h t ih => exact insertDesc_pairwise h (sortDesc t) ih

theorem insertDesc_filter_eq {α : Type} (x : α × ℚ) (l : List (α × ℚ)) (q : ℚ)
    (hx : x.2 = q) :
    (insertDesc x l).filter (fun p => p.2 = q) =
      x :: l.filter (fun p => p.2 = q) := by
  induction l with
  | nil => simp [insertDesc, List.filter_cons, hx]
  | cons h t ih =>
      by_cases hc : x.2 < h.2
      · have hh : ¬ (h.2 = q) := by
          intro h2; rw [hx, h2] at hc; exact lt_irrefl q hc
        simp only [insertDesc, if_pos hc, List.filter_cons,
          decide_eq_true_eq, if_neg hh]
        exact ih
      · simp only [insertDesc, if_neg hc]
        simp [List.filter_cons, hx]

theorem insertDesc_filter_ne {α : Type} (x : α × ℚ) (l : List (α × ℚ)) (q : ℚ)
    (hx : ¬ (x.2 = q)) :
    (insertDesc x l).filter (fun p => p.2 = q) =
      l.filter (fun p => p.2 = q) := by
  induction l with
  | nil => simp [insertDesc, List.filter_cons, hx]
  | cons h t ih =>
      by_cases hc : x.2 < h.2
      · by_cases hh : h.2 = q
        · simp only [insertDesc, if_pos hc, List.filter_cons,
            decide_eq_true_eq, if_pos hh]
          rw [ih]
        · simp only [insertDesc, if_pos hc, List.filter_cons,
            decide_eq_true_eq, if_neg hh]
          exact ih
      · simp only [insertDesc, if_neg hc]
        simp [List.filter_cons, hx]

/-- Stability of `sortDesc`: for every score value, the sub-list of entries
carrying that score is unchanged, i.e. ties keep their original
enumeration order. -/
theorem sortDesc_stable {α : Type} (l : List (α × ℚ)) (q : ℚ) :
    (sortDesc l).filter (fun p => p.2 = q) = l.filter (fun p => p.2 = q) := by
  induction l with
  | nil => rfl
  | cons h t ih =>
      show (insertDesc h (sortDesc t)).filter _ = _
      by_cases hh : h.2 = q
      · rw [insertDesc_filter_eq h (sortDesc t) q hh, ih]
        simp [List.filter_cons, hh]
      · rw [insertDesc_filter_ne h (sortDesc t) q hh, ih]
        simp [List.filter_cons, hh]

theorem sortDesc_length {α : Type} (l : List (α × ℚ)) :
    (sortDesc l).length = l.length :=
  (sortDesc_perm l).length_eq

/-!
Embedding of `src/RL/flow_manager.py`.
-/

/-- Statistics for a single flow (`FlowStats` dataclass). -/
structure FlowStats where
  flow_id : String
  src_id : String
  dst_id : String
  bandwidth : ℚ
  current_path : List String
  latency : ℚ
  queue_lengths : List (String × ℚ)
deriving DecidableEq

/-- Statistics for a single link (`LinkStats` dataclass). -/
structure LinkStats where
  link_id : String
  utilization : ℚ
  capacity : ℚ
  current_flows : List String
  queue_length : ℚ
deriving DecidableEq

/-- State of an `RLFlowManager` instance: the two stat dicts plus the
time-gating fields. -/
structure RLFlowManager where
  max_reroute_ratio : ℚ
  flow_stats : List (String × FlowStats)
  link_stats : List (String × LinkStats)
  last_update_time : ℚ
  update_interval : ℚ
deriving DecidableEq

/-- `RLFlowManager.__init__(max_reroute_ratio)`: empty dicts,
`last_update_time = 0.0`, `update_interval = 1.0`. -/
def mkRLFlowManager (ratio : ℚ) : RLFlowManager :=
  { max_reroute_ratio := ratio
    flow_stats := []
    link_stats := []
    last_update_time := 0
    update_interval := 1 }

/-- `update_flow_stats`: `self.flow_stats[flow_id] = stats`. -/
def RLFlowManager.update_flow_stats (m : RLFlowManager) (flow_id : String)
    (stats : FlowStats) : RLFlowManager :=
  { m with flow_stats := dinsert m.flow_stats flow_id stats }

/-- `update_link_stats`: `self.link_stats[link_id] = stats`. -/
def RLFlowManager.update_link_stats (m : RLFlowManager) (link_id : String)
    (stats : LinkStats) : RLFlowManager :=
  { m with link_stats := dinsert m.link_stats link_id stats }

/-- `calculate_congestion_impact`: sum `utilization/capacity +
queue_length/capacity` over the known links of the flow's path, times the
flow's bandwidth; an unknown flow scores 0.  Rational division totalizes
the `capacity = 0` case (where CPython would raise `ZeroDivisionError`;
the data model requires capacity > 0, and the IEEE-level behaviour is
modelled separately by `pfCalculateCongestionImpact`). -/
def RLFlowManager.calculate_congestion_impact (m : RLFlowManager)
    (flow_id : String) : ℚ :=
  match dget m.flow_stats flow_id with
  | none => 0
  | some flow =>
      (flow.current_path.foldl
        (fun impact link_id =>
          match dget m.link_stats link_id with
          | some link =>
              impact + link.utilization / link.capacity
                + link.queue_length / link.capacity
          | none => impact)
        0) * flow.bandwidth

/-- Score list built by `select_critical_flows`: one `(flow_id, impact)`
pair per registry entry, in dict insertion order. -/
def scoresOfLocal (m : RLFlowManager) : List (String × ℚ) :=
  m.flow_stats.map (fun p => (p.1, m.calculate_congestion_impact p.1))

/-- `select_critical_flows(current_time, k)`: time-gated, stable-sorted,
budgeted top-k selection.  Returns the updated manager state (Python
mutates `self.last_update_time`) together with the selected flow ids.
Note the budget is `int(N * ratio)` with no `max(1, ...)` floor. -/
def RLFlowManager.select_critical_flows (m : RLFlowManager)
    (current_time : ℚ) (k : ℤ) : RLFlowManager × List String :=
  if current_time - m.last_update_time < m.update_interval then (m, [])
  else
    let sorted_flows := sortDesc (scoresOfLocal m)
    let max_flows : ℤ := pytrunc ((m.flow_stats.length : ℚ) * m.max_reroute_ratio)
    let k2 : ℤ := min k max_flows
    let selected := (pySliceTo sorted_flows k2).map Prod.fst
    ({ m with last_update_time := current_time }, selected)

/-- Composite returned by `get_flow_state`.  `avg_latency` is
`np.mean([...])`: `none` models the NaN produced on an empty flow dict. -/
structure FlowState where
  flows : List (String × FlowStats)
  links : List (String × LinkStats)
  max_utilization : ℚ
  avg_latency : Option ℚ
deriving DecidableEq

/-- `get_flow_state`: the stored dicts plus `max(utilizations,
default=0.0)` and `np.mean(latencies)`. -/
def RLFlowManager.get_flow_state (m : RLFlowManager) : FlowState :=
  { flows := m.flow_stats
    links := m.link_stats
    max_utilization :=
      match m.link_stats.map (fun p => p.2.utilization) with
      | [] => 0
      | h :: t => t.foldl max h
    avg_latency := npMean (m.flow_stats.map (fun p => p.2.latency)) }

/-!
The telemetry bridge (`TelemetryPort`) consumed by
`select_critical_flows_via_bridge` and by `CloudSimSDNEnv`.  Flow ids are
modelled as integers (the code converts them with `int(fid)`); every
remote call that the Python code wraps in `try/except` is modelled as
returning `Except Unit v`, where `.error` stands for any raised
exception.  `getFlowAvgLatency` and `getLinkAvgUtilization` may also
return `none`, modelling a Java-side `None`/null sample (the code checks
`value is None` in `_normalize_value`). -/
structure Bridge where
  getAllLinkIds : List String
  getFlowIds : Option (List ℤ)
  getFlowAvgLatency : ℤ → ℚ → Except Unit (Option ℚ)
  getFlowEndpoints : ℤ → Except Unit (Option (ℤ × ℤ))
  getExpectedLatency : ℤ → ℤ → ℤ → Except Unit ℚ
  getRequestedBandwidth : ℤ → Except Unit ℚ
  getLinkAvgUtilization : ℤ → ℚ → Except Unit (Option ℚ)
  rerouteFlow : ℤ → Except Unit Bool
  isRunning : Bool
  getTime : ℚ

/-- Body of the per-flow `try` block of `select_critical_flows_via_bridge`:
`none` means the flow is skipped (any raised exception, an absent
endpoints record, or a `None` latency sample — comparing `None <= 0`
raises `TypeError`, which the same `except` catches). -/
def scoreFlow (b : Bridge) (fid : ℤ) (window : ℚ) : Option ℚ :=
  match b.getFlowAvgLatency fid window with
  | .error _ => none
  | .ok none => none
  | .ok (some obs) =>
    match b.getFlowEndpoints fid with
    | .error _ => none
    | .ok none => none
    | .ok (some (src, dst)) =>
      match b.getExpectedLatency src dst fid with
      | .error _ => none
      | .ok exp =>
        match b.getRequestedBandwidth fid with
        | .error _ => none
        | .ok bw =>
          some ((if obs ≤ 0 ∨ exp ≤ 0 then 0 else (obs - exp) / exp)
                  * max 1 bw)

/-- The `scores` list accumulated by `select_critical_flows_via_bridge`:
one `(fid, score)` pair per successfully sampled flow, in
`getFlowIds` order. -/
def scoresOfBridge (b : Bridge) (window : ℚ) : List (ℤ × ℚ) :=
  (b.getFlowIds.getD []).filterMap
    (fun fid => (scoreFlow b fid window).map (fun s => (fid, s)))

/-- `select_critical_flows_via_bridge(bridge, window, k,
max_reroute_ratio)`: `None` flow-id list yields `[]`; otherwise score
every flow (skipping per-flow faults), stable-sort descending, apply
budget `max(1, int(N*ratio))` and cap `k`, and keep only strictly
positive scores from the truncated prefix. -/
def select_critical_flows_via_bridge (b : Bridge) (window : ℚ) (k : ℤ)
    (max_reroute_ratio : ℚ) : List ℤ :=
  match b.getFlowIds with
  | none => []
  | some _ =>
    let scores := scoresOfBridge b window
    let sorted := sortDesc scores
    if scores.length = 0 then []
    else
      let max_flows : ℤ := max 1 (pytrunc ((scores.length : ℚ) * max_reroute_ratio))
      let k2 : ℤ := min k max_flows
      (pySliceTo sorted k2).filterMap
        (fun p => if 0 < p.2 then some p.1 else none)

/-!
Embedding of `src/RL/rl_env.py`.
-/

/-- `NetworkState`: link-label → normalized utilization and flow-id →
normalized latency, as insertion-ordered dicts.  Values stored here are
outputs of `_normalize_value`, hence finite rationals (`np.isfinite` is
identically true on this model). -/
structure NetworkState where
  link_utils : List (String × ℚ)
  flow_latencies : List (ℤ × ℚ)
deriving DecidableEq

/-- `_normalize_value(value, is_utilization)`: `None` (and, on real
floats, NaN/Inf) maps to 0.0, then utilizations are clamped to `[0,1]`
and latencies to `[0, 1e6]`. -/
def normalizeValue (value : Option ℚ) (is_utilization : Bool) : ℚ :=
  match value with
  | none => 0
  | some v =>
      if is_utilization then max 0 (min 1 v) else max 0 (min 1000000 v)

/-- Python-level errors that `CloudSimSDNEnv.step` can raise. -/
inductive PyErr where
  | typeError
  | keyError
  | valueError
deriving DecidableEq

/-- One `{'flowId': ..., 'rerouted': ...}` entry of the step results. -/
structure RerouteResult where
  flowId : ℤ
  rerouted : Bool
deriving DecidableEq

/-- The `info` dict returned by `step`. -/
structure StepInfo where
  time : ℚ
  selected_flows : List RerouteResult
  avg_latency : Option ℚ
  max_utilization : ℚ
deriving DecidableEq

/-- `CloudSimSDNEnv` instance state.  `link_ids`, `link_id_to_idx` and
`initial_flow_ids` are cached at construction by `__init__` and never
mutated afterwards (`prev_avg_latency` / `baseline_congestion` are set
but never read by `step`, and are omitted). -/
structure CloudSimSDNEnv where
  bridge : Bridge
  window : ℚ
  k : ℤ
  max_reroute_ratio : ℚ
  link_ids : List String
  link_id_to_idx : List (String × ℤ)
  initial_flow_ids : List ℤ

/-- Stable ascending insertion sort on keys, the contract of Python's
`sorted` (used for `sorted(str(x) for x in ...)`). -/
def insertAscBy {α : Type} (key : α → String) (x : α) : List α → List α
  | [] => [x]
  | h :: t => if key h ≤ key x then h :: insertAscBy key x t else x :: h :: t

/-- Python `sorted(str(x) for x in ids)`: the ids sorted by the
lexicographic (code-point) order of their decimal string form.  The code
stores the strings and converts back with `int(fid)` at use sites; the
model composes the round-trip eagerly and keeps integers. -/
def pySortByStr (ids : List ℤ) : List ℤ :=
  ids.foldr (insertAscBy (fun i => toString i)) []

/-- `CloudSimSDNEnv.__init__`: caches the link-id list, the
label → index dict built by `enumerate`, and the (string-)sorted initial
flow-id list.  `None` from `getFlowIds` would make `sorted(...)` raise,
so construction fails (`none`). -/
def mkEnv (bridge : Bridge) (window : ℚ) (k : ℤ) (max_reroute_ratio : ℚ) :
    Option CloudSimSDNEnv :=
  match bridge.getFlowIds with
  | none => none
  | some ids =>
      some
        { bridge := bridge
          window := window
          k := k
          max_reroute_ratio := max_reroute_ratio
          link_ids := bridge.getAllLinkIds
          link_id_to_idx :=
            (bridge.getAllLinkIds.enum.foldl
              (fun d p => dinsert d p.2 (p.1 : ℤ)) [])
          initial_flow_ids := pySortByStr ids }

/-- `self.n_links = len(self.link_ids)`. -/
def CloudSimSDNEnv.n_links (env : CloudSimSDNEnv) : ℕ := env.link_ids.length

/-- `self.n_flows = len(self.initial_flow_ids)`. -/
def CloudSimSDNEnv.n_flows (env : CloudSimSDNEnv) : ℕ :=
  env.initial_flow_ids.length

/-- Per-link body of `_get_network_state`: the whole `try` block
(index lookup, bridge call, normalization) collapses to 0.0 on any
fault. -/
def linkUtilValue (env : CloudSimSDNEnv) (link_id : String) : ℚ :=
  match dget env.link_id_to_idx link_id with
  | none => 0
  | some idx =>
      match env.bridge.getLinkAvgUtilization idx env.window with
      | .error _ => 0
      | .ok v => normalizeValue v true

/-- Per-flow body of `_get_network_state`: a failed latency call yields
0.0 for that flow. -/
def flowLatencyValue (env : CloudSimSDNEnv) (fid : ℤ) : ℚ :=
  match env.bridge.getFlowAvgLatency fid env.window with
  | .error _ => 0
  | .ok v => normalizeValue v false

/-- `_get_network_state`: per-item faults are absorbed to 0.0, but a
`None` flow-id collection makes the `for` loop itself raise `TypeError`
(that statement is outside the per-item `try`). -/
def CloudSimSDNEnv.getNetworkState (env : CloudSimSDNEnv) :
    Except PyErr NetworkState :=
  let link_utils := buildDict env.link_ids (linkUtilValue env) []
  match env.bridge.getFlowIds with
  | none => .error .typeError
  | some fids =>
      .ok { link_utils := link_utils
            flow_latencies := buildDict fids (flowLatencyValue env) [] }

/-- Latency values counted as valid by `_calculate_reward`
(`v > 0 and np.isfinite(v)`; finiteness is automatic over ℚ). -/
def validLatencies (s : NetworkState) : List ℚ :=
  (s.flow_latencies.map Prod.snd).filter (fun v => 0 < v)

/-- Utilization values counted as valid by `_calculate_reward`
(`v >= 0 and np.isfinite(v)`). -/
def validUtils (s : NetworkState) : List ℚ :=
  (s.link_utils.map Prod.snd).filter (fun v => 0 ≤ v)

/-- `_calculate_reward(prev_state, curr_state)`.  Over this total model
the `except` branch (reward 0.0 on an internal fault) is unreachable:
every operation is total, `np.mean` is only taken on nonempty lists and
`max` only on nonempty lists. -/
def CloudSimSDNEnv.calculateReward (prev_state curr_state : NetworkState) : ℚ :=
  let prev_latencies := validLatencies prev_state
  let curr_latencies := validLatencies curr_state
  let latency_reward : ℚ :=
    if prev_latencies ≠ [] ∧ curr_latencies ≠ [] then
      prev_latencies.sum / (prev_latencies.length : ℚ)
        - curr_latencies.sum / (curr_latencies.length : ℚ)
    else 0
  let prev_utils := validUtils prev_state
  let curr_utils := validUtils curr_state
  let congestion_reward : ℚ :=
    if prev_utils ≠ [] ∧ curr_utils ≠ [] then
      maxD prev_utils - maxD curr_utils
    else 0
  let total_reward := (7/10 : ℚ) * latency_reward
    + (3/10 : ℚ) * congestion_reward
  max (-100) (min 100 total_reward)

/-- The `link_array` comprehension of `step`/`reset`:
`[curr_state.link_utils[lid] for lid in self.link_ids]`; a missing key
would raise `KeyError`. -/
def linkArray (lids : List String) (st : NetworkState) :
    Except PyErr (List ℚ) :=
  match lids with
  | [] => .ok []
  | lid :: rest =>
      match dget st.link_utils lid with
      | none => .error .keyError
      | some v =>
          match linkArray rest st with
          | .error e => .error e
          | .ok vs => .ok (v :: vs)

/-- The `flow_array` loop of `step`/`reset`: start from `np.zeros` and
fill the positions of initial flows that still report data. -/
def flowArray (env : CloudSimSDNEnv) (st : NetworkState) : List ℚ :=
  env.initial_flow_ids.map (fun fid => (dget st.flow_latencies fid).getD 0)

/-- `CloudSimSDNEnv.step()`: capture pre-state, select and reroute
critical flows, capture post-state, compute reward, encode the
fixed-layout observation, and assemble the info dict.  The
`max(curr_state.link_utils.values())` in the info dict raises
`ValueError` when the link dict is empty; `np.mean` of the latency
values yields NaN (`none`) when empty, without raising.
(`time.sleep(0.1)` has no observable effect in the model.) -/
def CloudSimSDNEnv.step (env : CloudSimSDNEnv) :
    Except PyErr (List ℚ × ℚ × Bool × StepInfo) :=
  match env.getNetworkState with
  | .error e => .error e
  | .ok prev_state =>
    let selected := select_critical_flows_via_bridge env.bridge env.window
      env.k env.max_reroute_ratio
    let results := selected.map (fun fid =>
      { flowId := fid
        rerouted := match env.bridge.rerouteFlow fid with
                    | .ok ok => ok
                    | .error _ => false })
    match env.getNetworkState with
    | .error e => .error e
    | .ok curr_state =>
      let reward := CloudSimSDNEnv.calculateReward prev_state curr_state
      match linkArray env.link_ids curr_state with
      | .error e => .error e
      | .ok link_array =>
        let obs := link_array ++ flowArray env curr_state
        let done := !env.bridge.isRunning
        match curr_state.link_utils.map Prod.snd with
        | [] => .error .valueError
        | u :: us =>
            .ok (obs, reward, done,
              { time := env.bridge.getTime
                selected_flows := results
                avg_latency := npMean (curr_state.flow_latencies.map Prod.snd)
                max_utilization := us.foldl max u })

/-- `CloudSimSDNEnv.reset()`: initial snapshot encoded with the same
fixed layout as `step` (the code after the first `return` is
unreachable). -/
def CloudSimSDNEnv.reset (env : CloudSimSDNEnv) : Except PyErr (List ℚ) :=
  match env.getNetworkState with
  | .error e => .error e
  | .ok state =>
      match linkArray env.link_ids state with
      | .error e => .error e
      | .ok link_array => .ok (link_array ++ flowArray env state)

/-!
IEEE-level model for degenerate telemetry values (claim category:
NaN/Inf handling).  `PFloat` captures exactly the Python float behaviour
the scorers can encounter: NaN propagation through arithmetic, signed
infinities, and the `ZeroDivisionError` CPython raises whenever the
divisor is 0.0 (regardless of the dividend).  Finite arithmetic is kept
exact (no rounding/overflow is modelled, and the sign of zero is
collapsed); the claims settled with this model depend only on NaN/Inf
propagation, not on rounding. -/
inductive PFloat where
  | nan
  | inf
  | ninf
  | fin (q : ℚ)
deriving DecidableEq

/-- `float.is_integer`-style finiteness check (`np.isfinite`). -/
def PFloat.isFinite : PFloat → Bool
  | .fin _ => true
  | _ => false

/-- Python float addition. -/
def pfAdd : PFloat → PFloat → PFloat
  | .nan, _ => .nan
  | _, .nan => .nan
  | .inf, .ninf => .nan
  | .ninf, .inf => .nan
  | .inf, _ => .inf
  | _, .inf => .inf
  | .ninf, _ => .ninf
  | _, .ninf => .ninf
  | .fin a, .fin b => .fin (a + b)

/-- Python float multiplication. -/
def pfMul : PFloat → PFloat → PFloat
  | .nan, _ => .nan
  | _, .nan => .nan
  | .inf, .inf => .inf
  | .inf, .ninf => .ninf
  | .ninf, .inf => .ninf
  | .ninf, .ninf => .inf
  | .inf, .fin b => if b = 0 then .nan else if 0 < b then .inf else .ninf
  | .fin a, .inf => if a = 0 then .nan else if 0 < a then .inf else .ninf
  | .ninf, .fin b => if b = 0 then .nan else if 0 < b then .ninf else .inf
  | .fin a, .ninf => if a = 0 then .nan else if 0 < a then .ninf else .inf
  | .fin a, .fin b => .fin (a * b)

/-- Python float division: CPython raises `ZeroDivisionError` whenever
the divisor is (finite) 0.0, before looking at the dividend. -/
def pfDiv (a b : PFloat) : Except Unit PFloat :=
  match b with
  | .fin q =>
      if q = 0 then .error ()
      else
        match a with
        | .nan => .ok .nan
        | .inf => .ok (if 0 < q then .inf else .ninf)
        | .ninf => .ok (if 0 < q then .ninf else .inf)
        | .fin p => .ok (.fin (p / q))
  | .nan => .ok .nan
  | .inf =>
      match a with
      | .nan => .ok .nan
      | .inf => .ok .nan
      | .ninf => .ok .nan
      | .fin _ => .ok (.fin 0)
  | .ninf =>
      match a with
      | .nan => .ok .nan
      | .inf => .ok .nan
      | .ninf => .ok .nan
      | .fin _ => .ok (.fin 0)

/-- The fields of `FlowStats` that `calculate_congestion_impact` reads,
at IEEE-value level (the remaining fields are irrelevant to scoring). -/
structure PFlowStats where
  bandwidth : PFloat
  current_path : List String
deriving DecidableEq

/-- The fields of `LinkStats` that `calculate_congestion_impact` reads,
at IEEE-value level. -/
structure PLinkStats where
  utilization : PFloat
  capacity : PFloat
  queue_length : PFloat
deriving DecidableEq

/-- Body of one iteration of the `calculate_congestion_impact` loop at
IEEE-value level: the two `impact += .../capacity` statements, with
Python float arithmetic (`.error` is the uncaught `ZeroDivisionError` of
a 0.0 capacity). -/
def pfImpactStep (links : List (String × PLinkStats)) (impact : PFloat)
    (link_id : String) : Except Unit PFloat :=
  match dget links link_id with
  | none => .ok impact
  | some link =>
      match pfDiv link.utilization link.capacity with
      | .error e => .error e
      | .ok x =>
          match pfDiv link.queue_length link.capacity with
          | .error e => .error e
          | .ok y => .ok (pfAdd (pfAdd impact x) y)

/-- The `for link_id in flow.current_path` loop of
`calculate_congestion_impact` at IEEE-value level. -/
def pfImpactLoop (links : List (String × PLinkStats)) :
    List String → PFloat → Except Unit PFloat
  | [], impact => .ok impact
  | lid :: rest, impact =>
      match pfImpactStep links impact lid with
      | .error e => .error e
      | .ok impact2 => pfImpactLoop links rest impact2

/-- `calculate_congestion_impact` re-read at IEEE-value level: the same
algorithm as `RLFlowManager.calculate_congestion_impact`, with Python
float arithmetic.  There is no NaN/Inf sanitization anywhere in this
function: whatever the arithmetic produces is returned as the score. -/
def pfCalculateCongestionImpact (flows : List (String × PFlowStats))
    (links : List (String × PLinkStats)) (flow_id : String) :
    Except Unit PFloat :=
  match dget flows flow_id with
  | none => .ok (.fin 0)
  | some flow =>
      match pfImpactLoop links flow.current_path (.fin 0) with
      | .error e => .error e
      | .ok impact => .ok (pfMul impact flow.bandwidth)

/-!
Helper lemmas.
-/

theorem pytrunc_nonneg {q : ℚ} (h : 0 ≤ q) : 0 ≤ pytrunc q := by
  simp only [pytrunc, if_pos h]
  exact Rat.le_floor.mpr (by exact_mod_cast h)

theorem pySliceTo_length_le {α : Type} (xs : List α) (k : ℤ) (hk : 0 ≤ k) :
    (pySliceTo xs k).length ≤ k.toNat := by
  simp only [pySliceTo, if_pos hk, List.length_take]
  exact min_le_left _ _

theorem dget_dinsert {α β : Type} [DecidableEq α] (d : List (α × β))
    (a k : α) (v : β) :
    dget (dinsert d a v) k = if k = a then some v else dget d k := by
  induction d with
  | nil => simp [dinsert, dget]
  | cons hd t ih =>
      obtain ⟨k0, v0⟩ := hd
      simp only [dinsert]
      by_cases hha : a = k0
      · subst hha
        by_cases hk : k = a
        · simp [dget, hk]
        · simp [dget, hk]
      · rw [if_neg hha]
        by_cases hk : k = k0
        · subst hk
          have hne : ¬ (k = a) := fun he => hha he.symm
          simp [dget, hne]
        · simp [dget, hk, ih]

theorem dget_buildDict {α β : Type} [DecidableEq α] (keys : List α)
    (f : α → β) (init : List (α × β)) (k : α) :
    dget (buildDict keys f init) k =
      if k ∈ keys then some (f k) else dget init k := by
  induction keys generalizing init with
  | nil => simp [buildDict]
  | cons a rest ih =>
      show dget (buildDict rest f (dinsert init a (f a))) k = _
      rw [ih]
      by_cases hr : k ∈ rest
      · simp [hr]
      · rw [if_neg hr, dget_dinsert]
        by_cases hk : k = a
        · subst hk; simp
        · simp [hk, hr]

theorem buildDict_ne_nil {α β : Type} [DecidableEq α] (keys : List α)
    (f : α → β) (hk : keys ≠ []) : buildDict keys f [] ≠ [] := by
  intro hcon
  match keys, hk with
  | a :: rest, _ =>
      have := dget_buildDict (a :: rest) f [] a
      rw [hcon] at this
      simp [dget, List.mem_cons] at this

theorem linkArray_ok (lids : List String) (st : NetworkState)
    (h : ∀ lid ∈ lids, (dget st.link_utils lid).isSome) :
    linkArray lids st =
      .ok (lids.map (fun lid => (dget st.link_utils lid).getD 0)) := by
  induction lids with
  | nil => rfl
  | cons lid rest ih =>
      have h1 : (dget st.link_utils lid).isSome := h lid (List.mem_cons_self lid rest)
      match hv : dget st.link_utils lid with
      | none => rw [hv] at h1; simp at h1
      | some v =>
          simp only [linkArray, hv]
          rw [ih (fun l hl => h l (List.mem_cons_of_mem lid hl))]
          simp [hv]

/-- The local congestion-impact fold equals an explicit per-link sum. -/
theorem impact_foldl_eq_sum (m : RLFlowManager) (path : List String) (a : ℚ) :
    path.foldl
      (fun impact link_id =>
        match dget m.link_stats link_id with
        | some link =>
            impact + link.utilization / link.capacity
              + link.queue_length / link.capacity
        | none => impact) a
    = a + (path.map
        (fun link_id =>
          match dget m.link_stats link_id with
          | some link =>
              link.utilization / link.capacity
                + link.queue_length / link.capacity
          | none => 0)).sum := by
  induction path generalizing a with
  | nil => simp
  | cons lid rest ih =>
      simp only [List.foldl_cons, List.map_cons, List.sum_cons]
      match hv : dget m.link_stats lid with
      | none => rw [ih]; ring
      | some link => rw [ih]; ring

/-!
Claim C1.
-/

/-- Claim C1: every selection call (local `select_critical_flows` or
bridge `select_critical_flows_via_bridge`) with N scored flows,
nonnegative caller cap `k` and nonnegative `max_reroute_ratio` returns a
list of length at most `max 1 ⌊N * max_reroute_ratio⌋` and at most `k`;
a `None` flow-id collection or an empty score list yields the empty
list (and the result is a list by type, never null). -/
theorem claim_C1_selection_bounds :
    (∀ (m : RLFlowManager) (t : ℚ) (k : ℤ), 0 ≤ k → 0 ≤ m.max_reroute_ratio →
      (m.select_critical_flows t k).2.length ≤
          (max 1 (pytrunc ((m.flow_stats.length : ℚ) * m.max_reroute_ratio))).toNat
        ∧ (m.select_critical_flows t k).2.length ≤ k.toNat)
    ∧ (∀ (b : Bridge) (w : ℚ) (k : ℤ) (r : ℚ), 0 ≤ k → 0 ≤ r →
      (select_critical_flows_via_bridge b w k r).length ≤
          (max 1 (pytrunc (((scoresOfBridge b w).length : ℚ) * r))).toNat
        ∧ (select_critical_flows_via_bridge b w k r).length ≤ k.toNat)
    ∧ (∀ (b : Bridge) (w : ℚ) (k : ℤ) (r : ℚ),
      (b.getFlowIds = none → select_critical_flows_via_bridge b w k r = [])
      ∧ (scoresOfBridge b w = [] → select_critical_flows_via_bridge b w k r = [])) := by
  refine ⟨?_, ?_, ?_⟩
  · intro m t k hk hr
    by_cases hg : t - m.last_update_time < m.update_interval
    · simp [RLFlowManager.select_critical_flows, if_pos hg]
    · simp only [RLFlowManager.select_critical_flows, if_neg hg,
        List.length_map]
      have hmf : 0 ≤ pytrunc ((m.flow_stats.length : ℚ) * m.max_reroute_ratio) :=
        pytrunc_nonneg (mul_nonneg (by exact_mod_cast Nat.zero_le _) hr)
      have hk2 : (0 : ℤ) ≤ min k (pytrunc ((m.flow_stats.length : ℚ) * m.max_reroute_ratio)) :=
        le_min hk hmf
      have hlen := pySliceTo_length_le (sortDesc (scoresOfLocal m))
        (min k (pytrunc ((m.flow_stats.length : ℚ) * m.max_reroute_ratio))) hk2
      constructor
      · exact le_trans hlen (Int.toNat_le_toNat
          (le_trans (min_le_right _ _) (le_max_right 1 _)))
      · exact le_trans hlen (Int.toNat_le_toNat (min_le_left _ _))
  · intro b w k r hk hr
    match hfi : b.getFlowIds with
    | none => simp [select_critical_flows_via_bridge, hfi]
    | some ids =>
        simp only [select_critical_flows_via_bridge, hfi]
        by_cases hlen : (scoresOfBridge b w).length = 0
        · simp [hlen]
        · simp only [if_neg hlen]
          have hmf : (0 : ℤ) ≤ max 1 (pytrunc (((scoresOfBridge b w).length : ℚ) * r)) :=
            le_trans zero_le_one (le_max_left 1 _)
          have hk2 : (0 : ℤ) ≤ min k (max 1 (pytrunc (((scoresOfBridge b w).length : ℚ) * r))) :=
            le_min hk hmf
          have h1 : ((pySliceTo (sortDesc (scoresOfBridge b w))
              (min k (max 1 (pytrunc (((scoresOfBridge b w).length : ℚ) * r))))).filterMap
              (fun p => if 0 < p.2 then some p.1 else none)).length ≤
              (pySliceTo (sortDesc (scoresOfBridge b w))
              (min k (max 1 (pytrunc (((scoresOfBridge b w).length : ℚ) * r))))).length :=
            List.length_filterMap_le _ _
          have h2 := pySliceTo_length_le (sortDesc (scoresOfBridge b w))
            (min k (max 1 (pytrunc (((scoresOfBridge b w).length : ℚ) * r)))) hk2
          constructor
          · exact le_trans (le_trans h1 h2)
              (Int.toNat_le_toNat (min_le_right _ _))
          · exact le_trans (le_trans h1 h2)
              (Int.toNat_le_toNat (min_le_left _ _))
  · intro b w k r
    constructor
    · intro hfi; simp [select_critical_flows_via_bridge, hfi]
    · intro hsc
      match hfi : b.getFlowIds with
      | none => simp [select_critical_flows_via_bridge, hfi]
      | some ids => simp [select_critical_flows_via_bridge, hfi, hsc]

/-- Concrete registry used to instantiate claim C1. -/
def mgrC1 : RLFlowManager :=
  (mkRLFlowManager (3/20)).update_flow_stats "f1"
    { flow_id := "f1", src_id := "s", dst_id := "d", bandwidth := 2
      current_path := ["L1"], latency := 5, queue_lengths := [] }

/-- Concrete bridge used to instantiate claim C1. -/
def bridgeC1 : Bridge :=
  { getAllLinkIds := ["L1"]
    getFlowIds := some [1, 2]
    getFlowAvgLatency := fun fid _ => .ok (some (if fid = 1 then 50 else 0))
    getFlowEndpoints := fun _ => .ok (some (1, 2))
    getExpectedLatency := fun _ _ _ => .ok 20
    getRequestedBandwidth := fun _ => .ok 10
    getLinkAvgUtilization := fun _ _ => .ok (some (1/2))
    rerouteFlow := fun _ => .ok true
    isRunning := true
    getTime := 0 }

/-- Witness for claim C1 at a concrete registry and a concrete bridge. -/
theorem claim_C1_selection_bounds_witness :
    ((mgrC1.select_critical_flows 5 10).2.length ≤
        (max 1 (pytrunc ((mgrC1.flow_stats.length : ℚ) * mgrC1.max_reroute_ratio))).toNat
      ∧ (mgrC1.select_critical_flows 5 10).2.length ≤ (10 : ℤ).toNat)
    ∧ ((select_critical_flows_via_bridge bridgeC1 5 10 (3/20)).length ≤
        (max 1 (pytrunc (((scoresOfBridge bridgeC1 5).length : ℚ) * (3/20)))).toNat
      ∧ (select_critical_flows_via_bridge bridgeC1 5 10 (3/20)).length ≤ (10 : ℤ).toNat) :=
  ⟨claim_C1_selection_bounds.1 mgrC1 5 10 (by decide) (by with_unfolding_all decide),
   claim_C1_selection_bounds.2.1 bridgeC1 5 10 (3/20) (by decide)
     (by with_unfolding_all decide)⟩

/-!
Claim C2.
-/

/-- Effective selection size as the specification words it (claim C2):
`effective_k = min(k, max(1, ⌊N_total_flows * max_reroute_ratio⌋))`.
Written from the spec for comparison with the code. -/
def claimedEffectiveK (N : ℕ) (k : ℤ) (ratio : ℚ) : ℤ :=
  min k (max 1 (pytrunc ((N : ℚ) * ratio)))

/-- Concrete registry refuting claim C2: one flow, default ratio 0.15,
time gate already satisfied. -/
def mgrC2 : RLFlowManager :=
  (mkRLFlowManager (3/20)).update_flow_stats "f1"
    { flow_id := "f1", src_id := "s", dst_id := "d", bandwidth := 2
      current_path := [], latency := 0, queue_lengths := [] }

/-- Counterexample to claim C2: a non-gated local selection call with one
scored flow and the default ratio.  The claim's `effective_k` is
`min(10, max(1, ⌊1×0.15⌋)) = 1`, so the claim demands the single
highest-scored id; the code computes `min(10, int(1×0.15)) = 0` (no
`max(1, ·)` floor in `select_critical_flows`) and returns the empty
list. -/
theorem claim_C2_counterexample :
    mgrC2.flow_stats.length = 1
    ∧ ¬ ((5 : ℚ) - mgrC2.last_update_time < mgrC2.update_interval)
    ∧ claimedEffectiveK mgrC2.flow_stats.length 10 mgrC2.max_reroute_ratio = 1
    ∧ (mgrC2.select_critical_flows 5 10).2 = [] :=
  ⟨by with_unfolding_all rfl, by with_unfolding_all decide,
   by with_unfolding_all rfl, by with_unfolding_all rfl⟩

theorem pairwise_take_drop {α : Type} {R : α → α → Prop} {l : List α}
    (h : l.Pairwise R) (n : ℕ) :
    ∀ a ∈ l.take n, ∀ b ∈ l.drop n, R a b := by
  have h2 : (l.take n ++ l.drop n).Pairwise R := by
    rw [List.take_append_drop]; exact h
  intro a ha b hb
  exact (List.pairwise_append.mp h2).2.2 a ha b hb

theorem mem_of_mem_pySliceTo {α : Type} {x : α} {l : List α} {k : ℤ}
    (h : x ∈ pySliceTo l k) : x ∈ l := by
  unfold pySliceTo at h
  split at h
  · exact List.mem_of_mem_take h
  · exact List.mem_of_mem_take h

/-- Claim C2, amended: in either mode, a non-gated call returns exactly
the truncated prefix of the stable descending sort of the score list —
but with `effective_k = min(k, ⌊N·ratio⌋)` for the local selector (the
claimed `max(1, ·)` floor exists only in the bridge selector, which uses
`min(k, max(1, ⌊N·ratio⌋))` and then drops ids with score ≤ 0).  The
sorted list is a permutation of the score list, is descending, and ties
keep their original enumeration order (so identical input gives an
identical list); prefix scores dominate suffix scores; every id returned
by the bridge selector carries a strictly positive score. -/
theorem claim_C2_selection_contents :
    (∀ (m : RLFlowManager) (t : ℚ) (k : ℤ),
      ¬ (t - m.last_update_time < m.update_interval) →
      (m.select_critical_flows t k).2 =
          (pySliceTo (sortDesc (scoresOfLocal m))
            (min k (pytrunc ((m.flow_stats.length : ℚ) * m.max_reroute_ratio)))).map
            Prod.fst
        ∧ (sortDesc (scoresOfLocal m)).Pairwise (fun a b => b.2 ≤ a.2)
        ∧ List.Perm (sortDesc (scoresOfLocal m)) (scoresOfLocal m)
        ∧ (∀ q : ℚ, (sortDesc (scoresOfLocal m)).filter (fun p => p.2 = q)
            = (scoresOfLocal m).filter (fun p => p.2 = q))
        ∧ (∀ n : ℕ, ∀ p ∈ (sortDesc (scoresOfLocal m)).take n,
            ∀ p2 ∈ (sortDesc (scoresOfLocal m)).drop n, p2.2 ≤ p.2))
    ∧ (∀ (b : Bridge) (w : ℚ) (k : ℤ) (r : ℚ),
      scoresOfBridge b w ≠ [] →
      select_critical_flows_via_bridge b w k r =
          (pySliceTo (sortDesc (scoresOfBridge b w))
            (min k (max 1 (pytrunc (((scoresOfBridge b w).length : ℚ) * r))))).filterMap
            (fun p => if 0 < p.2 then some p.1 else none)
        ∧ (sortDesc (scoresOfBridge b w)).Pairwise (fun a b => b.2 ≤ a.2)
        ∧ List.Perm (sortDesc (scoresOfBridge b w)) (scoresOfBridge b w)
        ∧ (∀ q : ℚ, (sortDesc (scoresOfBridge b w)).filter (fun p => p.2 = q)
            = (scoresOfBridge b w).filter (fun p => p.2 = q))
        ∧ (∀ fid ∈ select_critical_flows_via_bridge b w k r,
            ∃ s, (fid, s) ∈ scoresOfBridge b w ∧ 0 < s)) := by
  constructor
  · intro m t k hg
    refine ⟨?_, sortDesc_pairwise _, sortDesc_perm _, fun q => sortDesc_stable _ q,
      fun n => pairwise_take_drop (sortDesc_pairwise _) n⟩
    simp [RLFlowManager.select_critical_flows, if_neg hg]
  · intro b w k r hsc
    have hfi : ∃ ids, b.getFlowIds = some ids := by
      match hfi : b.getFlowIds with
      | none =>
          exfalso; apply hsc
          simp [scoresOfBridge, hfi]
      | some ids => exact ⟨ids, rfl⟩
    obtain ⟨ids, hfi⟩ := hfi
    have heq : select_critical_flows_via_bridge b w k r =
        (pySliceTo (sortDesc (scoresOfBridge b w))
          (min k (max 1 (pytrunc (((scoresOfBridge b w).length : ℚ) * r))))).filterMap
          (fun p => if 0 < p.2 then some p.1 else none) := by
      simp [select_critical_flows_via_bridge, hfi, hsc]
    refine ⟨heq, sortDesc_pairwise _, sortDesc_perm _,
      fun q => sortDesc_stable _ q, ?_⟩
    intro fid hmem
    rw [heq] at hmem
    rcases List.mem_filterMap.mp hmem with ⟨p, hp, hpe⟩
    by_cases hpos : 0 < p.2
    · rw [if_pos hpos] at hpe
      have h1 : p.1 = fid := Option.some.inj hpe
      refine ⟨p.2, ?_, hpos⟩
      have hm : p ∈ scoresOfBridge b w :=
        (sortDesc_perm _).mem_iff.mp (mem_of_mem_pySliceTo hp)
      rw [← h1, Prod.mk.eta]
      exact hm
    · rw [if_neg hpos] at hpe
      exact absurd hpe (Option.noConfusion)

/-- Concrete registry for the claim C2 witness: two flows on one shared
link, ratio 1/2, so the budget is `⌊2 × 1/2⌋ = 1` and the higher-impact
flow `f2` must be selected. -/
def mgrC2w : RLFlowManager :=
  ((mkRLFlowManager (1/2)).update_flow_stats "f1"
    { flow_id := "f1", src_id := "s", dst_id := "d", bandwidth := 1
      current_path := ["L"], latency := 0, queue_lengths := [] }).update_flow_stats
    "f2"
    { flow_id := "f2", src_id := "s", dst_id := "d", bandwidth := 3
      current_path := ["L"], latency := 0, queue_lengths := [] }
    |>.update_link_stats "L"
    { link_id := "L", utilization := 1, capacity := 2
      current_flows := ["f1", "f2"], queue_length := 0 }

/-- Concrete bridge for the claim C2 witness: flow 7 degraded
(obs 50 > exp 20), flow 8 better than baseline (obs 10 < exp 20). -/
def bridgeC2w : Bridge :=
  { getAllLinkIds := ["L1"]
    getFlowIds := some [7, 8]
    getFlowAvgLatency := fun fid _ => .ok (some (if fid = 7 then 50 else 10))
    getFlowEndpoints := fun _ => .ok (some (1, 2))
    getExpectedLatency := fun _ _ _ => .ok 20
    getRequestedBandwidth := fun _ => .ok 10
    getLinkAvgUtilization := fun _ _ => .ok (some (1/2))
    rerouteFlow := fun _ => .ok true
    isRunning := true
    getTime := 0 }

/-- Witness for the amended claim C2 at concrete inputs: the prefix
equation produced by the theorem, plus the concretely evaluated
selections (the local selector picks the higher-impact flow `f2`, the
bridge selector picks the degraded flow 7). -/
theorem claim_C2_selection_contents_witness :
    ((mgrC2w.select_critical_flows 5 10).2 =
        (pySliceTo (sortDesc (scoresOfLocal mgrC2w))
          (min 10 (pytrunc ((mgrC2w.flow_stats.length : ℚ) * mgrC2w.max_reroute_ratio)))).map
          Prod.fst)
    ∧ (select_critical_flows_via_bridge bridgeC2w 5 10 (3/20) =
        (pySliceTo (sortDesc (scoresOfBridge bridgeC2w 5))
          (min 10 (max 1 (pytrunc (((scoresOfBridge bridgeC2w 5).length : ℚ) * (3/20)))))).filterMap
          (fun p => if 0 < p.2 then some p.1 else none))
    ∧ (mgrC2w.select_critical_flows 5 10).2 = ["f2"]
    ∧ select_critical_flows_via_bridge bridgeC2w 5 10 (3/20) = [7] :=
  ⟨(claim_C2_selection_contents.1 mgrC2w 5 10 (by with_unfolding_all decide)).1,
   (claim_C2_selection_contents.2 bridgeC2w 5 10 (3/20)
      (by with_unfolding_all decide)).1,
   by with_unfolding_all rfl, by with_unfolding_all rfl⟩

/-!
Claim C3.
-/

/-- Latency component of the reward as claim C3 words it: mean of the
previous snapshot's valid latencies minus mean of the current one's,
and 0 when either side has no valid value.  Written from the spec for
comparison with the code. -/
def claimedLatencyReward (prev curr : NetworkState) : ℚ :=
  if validLatencies prev ≠ [] ∧ validLatencies curr ≠ [] then
    (validLatencies prev).sum / ((validLatencies prev).length : ℚ)
      - (validLatencies curr).sum / ((validLatencies curr).length : ℚ)
  else 0

/-- Congestion component of the reward as claim C3 words it: max of the
previous snapshot's valid utilizations minus max of the current one's,
and 0 when either side has no valid value. -/
def claimedCongestionReward (prev curr : NetworkState) : ℚ :=
  if validUtils prev ≠ [] ∧ validUtils curr ≠ [] then
    maxD (validUtils prev) - maxD (validUtils curr)
  else 0

/-- Claim C3: the reward is exactly
`clamp(0.7 × latency_component + 0.3 × congestion_component)` with the
components as claimed (valid latency: > 0; valid utilization: ≥ 0;
finiteness is automatic over exact rationals); it always lies in
[−100, 100]; and it is 0 when both snapshots are empty.  The `except`
branch returning 0.0 is unreachable in this total model: no operation in
the translated body can fault. -/
theorem claim_C3_reward :
    ∀ prev curr : NetworkState,
      CloudSimSDNEnv.calculateReward prev curr
          = max (-100) (min 100 ((7/10) * claimedLatencyReward prev curr
              + (3/10) * claimedCongestionReward prev curr))
      ∧ -100 ≤ CloudSimSDNEnv.calculateReward prev curr
      ∧ CloudSimSDNEnv.calculateReward prev curr ≤ 100
      ∧ (prev.flow_latencies = [] → prev.link_utils = [] →
          curr.flow_latencies = [] → curr.link_utils = [] →
          CloudSimSDNEnv.calculateReward prev curr = 0) := by
  intro prev curr
  refine ⟨rfl, le_max_left _ _, max_le (by norm_num) (min_le_left _ _), ?_⟩
  intro h1 h2 h3 h4
  have hl : validLatencies prev = [] := by simp [validLatencies, h1]
  have hu : validUtils prev = [] := by simp [validUtils, h2]
  simp only [CloudSimSDNEnv.calculateReward, validLatencies, validUtils,
    h1, h2, h3, h4]
  norm_num

/-- Witness for claim C3: two empty snapshots give reward exactly 0, and
the bounds hold there. -/
theorem claim_C3_reward_witness :
    CloudSimSDNEnv.calculateReward { link_utils := [], flow_latencies := [] }
        { link_utils := [], flow_latencies := [] } = 0
    ∧ -100 ≤ CloudSimSDNEnv.calculateReward
        { link_utils := [], flow_latencies := [] }
        { link_utils := [], flow_latencies := [] } :=
  ⟨(claim_C3_reward { link_utils := [], flow_latencies := [] }
      { link_utils := [], flow_latencies := [] }).2.2.2 rfl rfl rfl rfl,
   (claim_C3_reward { link_utils := [], flow_latencies := [] }
      { link_utils := [], flow_latencies := [] }).2.1⟩

/-!
Claim C4.
-/

theorem insertAscBy_length {α : Type} (key : α → String) (x : α)
    (l : List α) : (insertAscBy key x l).length = l.length + 1 := by
  induction l with
  | nil => rfl
  | cons h t ih =>
      simp only [insertAscBy]
      split
      · simp [ih]
      · simp

theorem pySortByStr_length (ids : List ℤ) :
    (pySortByStr ids).length = ids.length := by
  induction ids with
  | nil => rfl
  | cons h t ih =>
      show (insertAscBy _ h (pySortByStr t)).length = t.length + 1
      rw [insertAscBy_length, ih]

/-- Decomposition of a successful `_get_network_state`: the link dict is
built over exactly the cached `link_ids`, and the flow dict over the
bridge's current flow ids. -/
theorem getNetworkState_ok (env : CloudSimSDNEnv) (st : NetworkState)
    (h : env.getNetworkState = .ok st) :
    st.link_utils = buildDict env.link_ids (linkUtilValue env) []
    ∧ ∃ fids, env.bridge.getFlowIds = some fids
        ∧ st.flow_latencies = buildDict fids (flowLatencyValue env) [] := by
  simp only [CloudSimSDNEnv.getNetworkState] at h
  cases hfi : env.bridge.getFlowIds with
  | none => rw [hfi] at h; simp at h
  | some fids =>
      rw [hfi] at h
      simp only [Except.ok.injEq] at h
      refine ⟨?_, fids, rfl, ?_⟩
      · rw [← h]
      · rw [← h]

theorem dget_link_utils (env : CloudSimSDNEnv) (st : NetworkState)
    (h : env.getNetworkState = .ok st) (lid : String)
    (hm : lid ∈ env.link_ids) :
    dget st.link_utils lid = some (linkUtilValue env lid) := by
  rw [(getNetworkState_ok env st h).1, dget_buildDict]
  simp [hm]

theorem linkArray_of_state (env : CloudSimSDNEnv) (st : NetworkState)
    (h : env.getNetworkState = .ok st) :
    linkArray env.link_ids st =
      .ok (env.link_ids.map (fun lid => (dget st.link_utils lid).getD 0)) := by
  apply linkArray_ok
  intro lid hm
  rw [dget_link_utils env st h lid hm]
  rfl

/-- Claim C4: every observation returned by `step` (and `reset`) is the
fixed-layout concatenation of the cached link order's normalized
utilizations and the construction-time initial-flow order's normalized
latencies (0 at the position of an initial flow that no longer reports
data), of total length `n_links + n_flows`; this holds for an arbitrary
current bridge state, so it is invariant across the environment's
lifetime as flows appear or disappear, and at construction `n_links` /
`n_flows` equal the bridge's link count and initial flow count. -/
theorem claim_C4_observation_layout :
    (∀ (env : CloudSimSDNEnv) (obs : List ℚ) (rew : ℚ) (dn : Bool)
        (info : StepInfo),
      env.step = .ok (obs, rew, dn, info) →
      obs.length = env.n_links + env.n_flows
      ∧ ∃ st, env.getNetworkState = .ok st
          ∧ obs = env.link_ids.map (fun lid => (dget st.link_utils lid).getD 0)
              ++ env.initial_flow_ids.map
                  (fun fid => (dget st.flow_latencies fid).getD 0))
    ∧ (∀ (env : CloudSimSDNEnv) (obs : List ℚ),
      env.reset = .ok obs →
      obs.length = env.n_links + env.n_flows
      ∧ ∃ st, env.getNetworkState = .ok st
          ∧ obs = env.link_ids.map (fun lid => (dget st.link_utils lid).getD 0)
              ++ env.initial_flow_ids.map
                  (fun fid => (dget st.flow_latencies fid).getD 0))
    ∧ (∀ (b : Bridge) (w : ℚ) (k : ℤ) (r : ℚ) (env : CloudSimSDNEnv)
        (ids : List ℤ),
      b.getFlowIds = some ids → mkEnv b w k r = some env →
      env.n_links = b.getAllLinkIds.length ∧ env.n_flows = ids.length) := by
  refine ⟨?_, ?_, ?_⟩
  · intro env obs rew dn info h
    simp only [CloudSimSDNEnv.step] at h
    cases hst : env.getNetworkState with
    | error e => rw [hst] at h; simp at h
    | ok st =>
        rw [hst] at h
        dsimp only at h
        rw [linkArray_of_state env st hst] at h
        dsimp only at h
        cases hmap : st.link_utils.map Prod.snd with
        | nil => rw [hmap] at h; simp at h
        | cons u us =>
            rw [hmap] at h
            dsimp only at h
            simp only [Except.ok.injEq, Prod.mk.injEq] at h
            obtain ⟨hobs, -, -, -⟩ := h
            subst hobs
            refine ⟨?_, st, rfl, rfl⟩
            simp [flowArray, CloudSimSDNEnv.n_links, CloudSimSDNEnv.n_flows]
  · intro env obs h
    simp only [CloudSimSDNEnv.reset] at h
    cases hst : env.getNetworkState with
    | error e => rw [hst] at h; simp at h
    | ok st =>
        rw [hst] at h
        dsimp only at h
        rw [linkArray_of_state env st hst] at h
        dsimp only at h
        simp only [Except.ok.injEq] at h
        subst h
        refine ⟨?_, st, rfl, rfl⟩
        simp [flowArray, CloudSimSDNEnv.n_links, CloudSimSDNEnv.n_flows]
  · intro b w k r env ids hfi hmk
    simp only [mkEnv, hfi, Option.some.injEq] at hmk
    subst hmk
    exact ⟨rfl, by
      simp [CloudSimSDNEnv.n_flows, pySortByStr_length]⟩

/-- Concrete bridge for the claim C4 witness: one link, one flow, all
telemetry healthy. -/
def bridgeC4 : Bridge :=
  { getAllLinkIds := ["L1"]
    getFlowIds := some [1]
    getFlowAvgLatency := fun _ _ => .ok (some 50)
    getFlowEndpoints := fun _ => .ok (some (1, 2))
    getExpectedLatency := fun _ _ _ => .ok 20
    getRequestedBandwidth := fun _ => .ok 10
    getLinkAvgUtilization := fun _ _ => .ok (some (1/2))
    rerouteFlow := fun _ => .ok true
    isRunning := true
    getTime := 3 }

/-- The environment constructed over `bridgeC4`. -/
def envC4 : CloudSimSDNEnv :=
  { bridge := bridgeC4
    window := 5
    k := 10
    max_reroute_ratio := 3/20
    link_ids := ["L1"]
    link_id_to_idx := [("L1", 0)]
    initial_flow_ids := [1] }

/-- The info record produced by the claim C4 witness step. -/
def infoC4 : StepInfo :=
  { time := 3
    selected_flows := [{ flowId := 1, rerouted := true }]
    avg_latency := some 50
    max_utilization := 1/2 }

/-- Witness for claim C4: on the concrete one-link one-flow bridge,
construction yields `envC4`, the step succeeds with observation
`[0.5, 50]`, and the theorem instantiates to give its length
`n_links + n_flows = 2`. -/
theorem claim_C4_observation_layout_witness :
    mkEnv bridgeC4 5 10 (3/20) = some envC4
    ∧ envC4.step = .ok ([1/2, 50], 0, false, infoC4)
    ∧ ([1/2, 50] : List ℚ).length = envC4.n_links + envC4.n_flows :=
  ⟨by with_unfolding_all rfl, by with_unfolding_all rfl,
   (claim_C4_observation_layout.1 envC4 [1/2, 50] 0 false infoC4
      (by with_unfolding_all rfl)).1⟩

/-!
Claim C5.
-/

/-- Impact score as claim C5 words it:
`bandwidth(f) × Σ_{link ∈ path} (utilization/capacity +
queueLength/capacity)`, unknown links contributing nothing.  Written
from the spec for comparison with the code. -/
def claimedPathImpact (m : RLFlowManager) (flow : FlowStats) : ℚ :=
  flow.bandwidth *
    (flow.current_path.map
      (fun link_id =>
        match dget m.link_stats link_id with
        | some link =>
            link.utilization / link.capacity
              + link.queue_length / link.capacity
        | none => 0)).sum

/-- Claim C5: in path-impact mode the score of every known flow is its
bandwidth times the sum of `util/cap + queue/cap` over the known links
of its path (unknown links contribute nothing), and an unknown flow
scores 0 — a flow none of whose path links are known scores 0 as the
empty-sum instance of the formula. -/
theorem claim_C5_impact_formula :
    ∀ (m : RLFlowManager) (fid : String),
      (∀ flow, dget m.flow_stats fid = some flow →
        m.calculate_congestion_impact fid = claimedPathImpact m flow)
      ∧ (dget m.flow_stats fid = none →
        m.calculate_congestion_impact fid = 0) := by
  intro m fid
  constructor
  · intro flow hflow
    simp only [RLFlowManager.calculate_congestion_impact, hflow,
      claimedPathImpact]
    rw [impact_foldl_eq_sum]
    ring
  · intro hflow
    simp [RLFlowManager.calculate_congestion_impact, hflow]

/-- The flow of the claim C5 scenario: `F1`, bandwidth 2.0,
path `[L1]`. -/
def fsF1 : FlowStats :=
  { flow_id := "F1", src_id := "s", dst_id := "d", bandwidth := 2
    current_path := ["L1"], latency := 0, queue_lengths := [] }

/-- The registry of the claim C5 scenario:
`L1(util=0.9, cap=1.0, queue=0.2)`, `L2(util=0.1, cap=1.0, queue=0.0)`,
and flow `F1`. -/
def mgrC5 : RLFlowManager :=
  (((mkRLFlowManager (3/20)).update_link_stats "L1"
    { link_id := "L1", utilization := 9/10, capacity := 1
      current_flows := ["F1"], queue_length := 2/10 }).update_link_stats "L2"
    { link_id := "L2", utilization := 1/10, capacity := 1
      current_flows := [], queue_length := 0 }).update_flow_stats "F1" fsF1

/-- Witness for claim C5: on the spec's scenario the theorem gives the
formula, and the score evaluates to `2.0 × (0.9 + 0.2) = 2.2`. -/
theorem claim_C5_impact_formula_witness :
    dget mgrC5.flow_stats "F1" = some fsF1
    ∧ mgrC5.calculate_congestion_impact "F1" = claimedPathImpact mgrC5 fsF1
    ∧ mgrC5.calculate_congestion_impact "F1" = 11/5 :=
  ⟨by with_unfolding_all rfl,
   (claim_C5_impact_formula mgrC5 "F1").1 fsF1 (by with_unfolding_all rfl),
   by with_unfolding_all rfl⟩

/-!
Claim C6.
-/

theorem dget_mem {α β : Type} [DecidableEq α] {d : List (α × β)} {k : α}
    {v : β} (h : dget d k = some v) : (k, v) ∈ d := by
  induction d with
  | nil => simp [dget] at h
  | cons hd t ih =>
      obtain ⟨k0, v0⟩ := hd
      by_cases hk : k = k0
      · subst hk
        have h2 : v0 = v := by simpa [dget] using h
        subst h2
        exact List.mem_cons_self _ _
      · simp only [dget, if_neg hk] at h
        exact List.mem_cons_of_mem _ (ih h)

/-- Claim C6: in latency-ratio mode, a flow whose four telemetry samples
all succeed scores `ratio × max(1.0, bandwidth)` with
`ratio = (obs − exp)/exp` when `obs > 0` and `exp > 0`, else 0; a flow
whose sampling faults (or whose score is dropped) is absent from the
score list, while every successfully scored flow listed by the bridge is
present — so one faulty flow never aborts the scoring of the rest. -/
theorem claim_C6_ratio_scoring :
    ∀ (b : Bridge) (w : ℚ) (fid : ℤ),
      (∀ (obs : ℚ) (src dst : ℤ) (e bw : ℚ),
        b.getFlowAvgLatency fid w = .ok (some obs) →
        b.getFlowEndpoints fid = .ok (some (src, dst)) →
        b.getExpectedLatency src dst fid = .ok e →
        b.getRequestedBandwidth fid = .ok bw →
        scoreFlow b fid w =
          some ((if 0 < obs ∧ 0 < e then (obs - e) / e else 0) * max 1 bw))
      ∧ (scoreFlow b fid w = none →
          fid ∉ (scoresOfBridge b w).map Prod.fst)
      ∧ (∀ s, scoreFlow b fid w = some s → fid ∈ b.getFlowIds.getD [] →
          (fid, s) ∈ scoresOfBridge b w) := by
  intro b w fid
  refine ⟨?_, ?_, ?_⟩
  · intro obs src dst e bw h1 h2 h3 h4
    simp only [scoreFlow, h1, h2, h3, h4]
    congr 1
    by_cases hc : obs ≤ 0 ∨ e ≤ 0
    · rw [if_pos hc, if_neg]
      intro hcon
      rcases hc with hc | hc
      · exact absurd hcon.1 (not_lt.mpr hc)
      · exact absurd hcon.2 (not_lt.mpr hc)
    · rw [if_neg hc, if_pos]
      push_neg at hc
      exact ⟨hc.1, hc.2⟩
  · intro hnone hmem
    rcases List.mem_map.mp hmem with ⟨p, hp, hfst⟩
    rcases List.mem_filterMap.mp hp with ⟨a, _, ha⟩
    match hsf : scoreFlow b a w with
    | none =>
        rw [hsf] at ha
        exact Option.noConfusion ha
    | some s =>
        rw [hsf] at ha
        have hp2 : (a, s) = p := Option.some.inj ha
        rw [← hp2] at hfst
        have haf : a = fid := hfst
        rw [haf] at hsf
        rw [hnone] at hsf
        exact Option.noConfusion hsf
  · intro s hs hmem
    exact List.mem_filterMap.mpr ⟨fid, hmem, by rw [hs]; rfl⟩

/-- Concrete bridge of the claim C6 scenario: flow 2 has `obs=50`,
flow 3 has `obs=0`, and every telemetry call for flow 4 raises;
`exp=20` and `bandwidth=10` throughout. -/
def bridgeC6 : Bridge :=
  { getAllLinkIds := ["L1"]
    getFlowIds := some [2, 3, 4]
    getFlowAvgLatency := fun fid _ =>
      if fid = 4 then .error () else .ok (some (if fid = 2 then 50 else 0))
    getFlowEndpoints := fun fid =>
      if fid = 4 then .error () else .ok (some (1, 2))
    getExpectedLatency := fun _ _ _ => .ok 20
    getRequestedBandwidth := fun _ => .ok 10
    getLinkAvgUtilization := fun _ _ => .ok (some (1/2))
    rerouteFlow := fun _ => .ok true
    isRunning := true
    getTime := 0 }

/-- Witness for claim C6: flow 2 scores
`((50−20)/20) × max(1,10) = 15.0`, flow 3 (obs = 0) scores 0, and the
faulting flow 4 is excluded while flows 2 and 3 are still scored. -/
theorem claim_C6_ratio_scoring_witness :
    scoreFlow bridgeC6 2 5 =
        some ((if 0 < (50:ℚ) ∧ 0 < (20:ℚ) then ((50:ℚ) - 20) / 20 else 0)
          * max 1 10)
    ∧ scoreFlow bridgeC6 2 5 = some 15
    ∧ scoreFlow bridgeC6 3 5 = some 0
    ∧ (4 : ℤ) ∉ (scoresOfBridge bridgeC6 5).map Prod.fst
    ∧ scoresOfBridge bridgeC6 5 = [(2, 15), (3, 0)] :=
  ⟨(claim_C6_ratio_scoring bridgeC6 5 2).1 50 1 2 20 10
      (by with_unfolding_all rfl) (by with_unfolding_all rfl)
      (by with_unfolding_all rfl) (by with_unfolding_all rfl),
   by with_unfolding_all rfl,
   by with_unfolding_all rfl,
   (claim_C6_ratio_scoring bridgeC6 5 4).2.1 (by with_unfolding_all rfl),
   by with_unfolding_all rfl⟩

/-!
Claim C7.
-/

/-- Claim C7: a selection call within `update_interval` of the last
decision returns the empty list immediately and leaves the manager state
unchanged (no score is consulted); consequently — the interval being
positive — two calls at the same `current_time` always yield an empty
list on the second call. -/
theorem claim_C7_time_gating :
    ∀ (m : RLFlowManager) (t : ℚ) (k1 k2 : ℤ),
      (t - m.last_update_time < m.update_interval →
        m.select_critical_flows t k1 = (m, []))
      ∧ (0 < m.update_interval →
        ((m.select_critical_flows t k1).1.select_critical_flows t k2).2 = []) := by
  intro m t k1 k2
  constructor
  · intro hg
    simp [RLFlowManager.select_critical_flows, if_pos hg]
  · intro hi
    by_cases hg : t - m.last_update_time < m.update_interval
    · simp [RLFlowManager.select_critical_flows, if_pos hg]
    · have h1 : (m.select_critical_flows t k1).1 =
          { m with last_update_time := t } := by
        simp [RLFlowManager.select_critical_flows, if_neg hg]
      rw [h1]
      simp [RLFlowManager.select_critical_flows, hi]

/-- Witness for claim C7: with the freshly constructed manager
(`update_interval = 1`), a call at time 0.5 is gated, and a second call
at time 5 right after a successful one returns the empty list. -/
theorem claim_C7_time_gating_witness :
    (mkRLFlowManager (3/20)).select_critical_flows (1/2) 10 =
        (mkRLFlowManager (3/20), [])
    ∧ (((mkRLFlowManager (3/20)).select_critical_flows 5 10).1.select_critical_flows
        5 7).2 = [] :=
  ⟨(claim_C7_time_gating (mkRLFlowManager (3/20)) (1/2) 10 7).1
      (by with_unfolding_all decide),
   (claim_C7_time_gating (mkRLFlowManager (3/20)) 5 10 7).2
      (by with_unfolding_all decide)⟩

/-!
Claim C8.
-/

/-- The registry refuting claim C8: flow `f1` (finite bandwidth 1) whose
single path link has a NaN utilization sample. -/
def pflowsC8 : List (String × PFlowStats) :=
  [("f1", { bandwidth := .fin 1, current_path := ["L"] })]

/-- The link table refuting claim C8. -/
def plinksC8 : List (String × PLinkStats) :=
  [("L", { utilization := .nan, capacity := .fin 1, queue_length := .fin 0 })]

/-- Counterexample to claim C8: with a NaN utilization sample on the
flow's only link, the path-impact scorer returns the score NaN — a
non-finite value that is not replaced by 0 anywhere before being used
(there is no NaN/Inf sanitization in either scorer; only the
observation-side `_normalize_value` maps NaN/Inf to 0). -/
theorem claim_C8_counterexample :
    pfCalculateCongestionImpact pflowsC8 plinksC8 "f1" = .ok .nan
    ∧ PFloat.nan.isFinite = false :=
  ⟨by with_unfolding_all rfl, rfl⟩

theorem pfImpactLoop_finite (links : List (String × PLinkStats))
    (hlinks : ∀ p ∈ links, ∃ u c q, p.2 =
      { utilization := PFloat.fin u, capacity := PFloat.fin c,
        queue_length := PFloat.fin q } ∧ c ≠ 0)
    (path : List String) (a : ℚ) :
    ∃ r : ℚ, pfImpactLoop links path (.fin a) = .ok (.fin r) := by
  induction path generalizing a with
  | nil => exact ⟨a, rfl⟩
  | cons lid rest ih =>
      simp only [pfImpactLoop]
      match hd : dget links lid with
      | none =>
          have hs : pfImpactStep links (.fin a) lid = .ok (.fin a) := by
            simp [pfImpactStep, hd]
          rw [hs]
          exact ih a
      | some link =>
          obtain ⟨u, c, q, hlk, hc⟩ := hlinks (lid, link) (dget_mem hd)
          have hlk2 : link =
              { utilization := .fin u, capacity := .fin c,
                queue_length := .fin q } := hlk
          subst hlk2
          have hs : pfImpactStep links (.fin a) lid =
              .ok (.fin (a + u / c + q / c)) := by
            simp [pfImpactStep, hd, pfDiv, hc, pfAdd]
          rw [hs]
          exact ih _

/-- Claim C8, amended: the scorers perform no NaN/Inf→0 replacement (see
the counterexample), but whenever the telemetry inputs are themselves
finite — every known link having finite utilization, capacity and queue
length with a nonzero capacity, and the flow a finite bandwidth — the
path-impact score is a finite value.  (The latency-ratio scorer's
arithmetic is modelled over exact rationals in `scoreFlow`, where every
produced score is finite by construction.) -/
theorem claim_C8_finite_scores :
    ∀ (flows : List (String × PFlowStats))
      (links : List (String × PLinkStats)) (fid : String),
      (∀ p ∈ links, ∃ u c q, p.2 =
        { utilization := PFloat.fin u, capacity := PFloat.fin c,
          queue_length := PFloat.fin q } ∧ c ≠ 0) →
      (∀ fl, dget flows fid = some fl → ∃ bq, fl.bandwidth = PFloat.fin bq) →
      ∃ s : ℚ, pfCalculateCongestionImpact flows links fid = .ok (.fin s)
        ∧ (PFloat.fin s).isFinite = true := by
  intro flows links fid hlinks hflow
  match hf : dget flows fid with
  | none => exact ⟨0, by simp [pfCalculateCongestionImpact, hf], rfl⟩
  | some fl =>
      obtain ⟨bq, hbq⟩ := hflow fl hf
      obtain ⟨r, hr⟩ := pfImpactLoop_finite links hlinks fl.current_path 0
      refine ⟨r * bq, ?_, rfl⟩
      simp [pfCalculateCongestionImpact, hf, hr, hbq, pfMul]

/-- Finite-input registry instantiating the amended claim C8 (the C5
scenario at IEEE-value level). -/
def pflowsC8w : List (String × PFlowStats) :=
  [("f1", { bandwidth := .fin 2, current_path := ["L"] })]

/-- Finite-input link table instantiating the amended claim C8. -/
def plinksC8w : List (String × PLinkStats) :=
  [("L", { utilization := .fin (9/10), capacity := .fin 1,
           queue_length := .fin (2/10) })]

/-- Witness for the amended claim C8: on an all-finite registry the
theorem yields a finite score, and the score evaluates to 2.2. -/
theorem claim_C8_finite_scores_witness :
    (∃ s : ℚ, pfCalculateCongestionImpact pflowsC8w plinksC8w "f1" =
        .ok (.fin s) ∧ (PFloat.fin s).isFinite = true)
    ∧ pfCalculateCongestionImpact pflowsC8w plinksC8w "f1" =
        .ok (.fin (11/5)) :=
  ⟨claim_C8_finite_scores pflowsC8w plinksC8w "f1"
      (by
        intro p hp
        simp only [plinksC8w, List.mem_singleton] at hp
        subst hp
        exact ⟨9/10, 1, 2/10, rfl, one_ne_zero⟩)
      (by
        intro fl hfl
        have h2 : ({ bandwidth := .fin 2, current_path := ["L"] } : PFlowStats)
            = fl := by simpa [pflowsC8w, dget] using hfl
        exact ⟨2, by rw [← h2]⟩),
   by with_unfolding_all rfl⟩

/-!
Claim C9.
-/

/-- Counterexample to claim C9: on an empty registry, `get_flow_state`'s
mean latency is `np.mean([])`, i.e. NaN (`none` in this model) — not the
claimed 0.0 sentinel. -/
theorem claim_C9_counterexample :
    ((mkRLFlowManager (3/20)).get_flow_state).avg_latency = none
    ∧ ((mkRLFlowManager (3/20)).get_flow_state).avg_latency ≠ some 0 := by
  have h : ((mkRLFlowManager (3/20)).get_flow_state).avg_latency = none := by
    with_unfolding_all rfl
  exact ⟨h, by rw [h]; exact fun hc => Option.noConfusion hc⟩

/-- Claim C9, amended: `get_flow_state` returns the stored flow and link
records unchanged, with maximum link utilization over all known links
(0.0 when none are known) and the mean latency over all known flows —
which on an empty flow set is NaN (`np.mean([])`), not a 0.0 sentinel.
The call is a pure function of the registry state, so it has no side
effect on it. -/
theorem claim_C9_flow_state :
    ∀ m : RLFlowManager,
      (m.get_flow_state).flows = m.flow_stats
      ∧ (m.get_flow_state).links = m.link_stats
      ∧ (m.link_stats = [] → (m.get_flow_state).max_utilization = 0)
      ∧ (m.link_stats ≠ [] → (m.get_flow_state).max_utilization =
          maxD (m.link_stats.map (fun p => p.2.utilization)))
      ∧ (m.flow_stats = [] → (m.get_flow_state).avg_latency = none)
      ∧ (m.flow_stats ≠ [] → (m.get_flow_state).avg_latency =
          some ((m.flow_stats.map (fun p => p.2.latency)).sum
            / (m.flow_stats.length : ℚ))) := by
  intro m
  refine ⟨rfl, rfl, ?_, ?_, ?_, ?_⟩
  · intro h
    simp [RLFlowManager.get_flow_state, h]
  · intro h
    cases hls : m.link_stats with
    | nil => exact absurd hls h
    | cons p t => simp [RLFlowManager.get_flow_state, hls, maxD]
  · intro h
    simp [RLFlowManager.get_flow_state, h, npMean]
  · intro h
    cases hfs : m.flow_stats with
    | nil => exact absurd hfs h
    | cons p t => simp [RLFlowManager.get_flow_state, hfs, npMean]

/-- Concrete registry for the claim C9 witness: one link with
utilization 0.5 and one flow with latency 7. -/
def mgrC9w : RLFlowManager :=
  ((mkRLFlowManager (3/20)).update_link_stats "L"
    { link_id := "L", utilization := 1/2, capacity := 1
      current_flows := [], queue_length := 0 }).update_flow_stats "f"
    { flow_id := "f", src_id := "s", dst_id := "d", bandwidth := 1
      current_path := ["L"], latency := 7, queue_lengths := [] }

/-- Witness for the amended claim C9: on a one-link one-flow registry
the derived summaries evaluate to max utilization 0.5 and mean
latency 7. -/
theorem claim_C9_flow_state_witness :
    ((mgrC9w.get_flow_state).max_utilization =
        maxD (mgrC9w.link_stats.map (fun p => p.2.utilization)))
    ∧ ((mgrC9w.get_flow_state).avg_latency =
        some ((mgrC9w.flow_stats.map (fun p => p.2.latency)).sum
          / (mgrC9w.flow_stats.length : ℚ)))
    ∧ (mgrC9w.get_flow_state).max_utilization = 1/2
    ∧ (mgrC9w.get_flow_state).avg_latency = some 7 :=
  ⟨(claim_C9_flow_state mgrC9w).2.2.2.1 (by with_unfolding_all decide),
   (claim_C9_flow_state mgrC9w).2.2.2.2.2 (by with_unfolding_all decide),
   by with_unfolding_all rfl,
   by with_unfolding_all rfl⟩

/-!
Claim C10.
-/

/-- Bridge refuting claim C10: a structurally healthy source (flow-id
list present) that reports zero links. -/
def bridgeC10 : Bridge :=
  { getAllLinkIds := []
    getFlowIds := some []
    getFlowAvgLatency := fun _ _ => .error ()
    getFlowEndpoints := fun _ => .error ()
    getExpectedLatency := fun _ _ _ => .error ()
    getRequestedBandwidth := fun _ => .error ()
    getLinkAvgUtilization := fun _ _ => .error ()
    rerouteFlow := fun _ => .error ()
    isRunning := false
    getTime := 0 }

/-- The environment constructed over `bridgeC10`. -/
def envC10 : CloudSimSDNEnv :=
  { bridge := bridgeC10
    window := 5
    k := 10
    max_reroute_ratio := 3/20
    link_ids := []
    link_id_to_idx := []
    initial_flow_ids := [] }

/-- Counterexample to claim C10: when the bridge reports zero links,
construction succeeds but `step()` raises `ValueError` while computing
`max(curr_state.link_utils.values())` for the info dict — it does not
return the (observation, reward, done, info) tuple. -/
theorem claim_C10_counterexample :
    mkEnv bridgeC10 5 10 (3/20) = some envC10
    ∧ envC10.step = .error PyErr.valueError :=
  ⟨by with_unfolding_all rfl, by with_unfolding_all rfl⟩

/-- Claim C10, amended: per-item telemetry faults are neutralized
locally (a faulty flow's latency and a faulty link's utilization default
to 0.0; a flow whose scoring samples fault is dropped from selection by
`scoreFlow`; a failed reroute is recorded as `rerouted := false`), and
`step()` returns the (observation, reward, done, info) tuple whenever
the bridge's flow-id collection is present and at least one link is
known — with zero links, `step()` raises on the info dict's
`max(link_utils.values())` (see the counterexample). -/
theorem claim_C10_step_total :
    (∀ (env : CloudSimSDNEnv) (fid : ℤ),
      env.bridge.getFlowAvgLatency fid env.window = .error () →
      flowLatencyValue env fid = 0)
    ∧ (∀ (env : CloudSimSDNEnv) (lid : String) (idx : ℤ),
      dget env.link_id_to_idx lid = some idx →
      env.bridge.getLinkAvgUtilization idx env.window = .error () →
      linkUtilValue env lid = 0)
    ∧ (∀ (env : CloudSimSDNEnv) (ids : List ℤ),
      env.bridge.getFlowIds = some ids → env.link_ids ≠ [] →
      ∃ out, env.step = .ok out) := by
  refine ⟨?_, ?_, ?_⟩
  · intro env fid h
    simp [flowLatencyValue, h]
  · intro env lid idx hidx h
    simp [linkUtilValue, hidx, h]
  · intro env ids hfi hlinks
    have hst : env.getNetworkState = .ok
        { link_utils := buildDict env.link_ids (linkUtilValue env) []
          flow_latencies := buildDict ids (flowLatencyValue env) [] } := by
      simp [CloudSimSDNEnv.getNetworkState, hfi]
    have hne : buildDict env.link_ids (linkUtilValue env) []
        ≠ ([] : List (String × ℚ)) := buildDict_ne_nil _ _ hlinks
    obtain ⟨p, t, hcons⟩ : ∃ p t,
        buildDict env.link_ids (linkUtilValue env) [] = p :: t := by
      cases hsl : buildDict env.link_ids (linkUtilValue env) [] with
      | nil => exact absurd hsl hne
      | cons p t => exact ⟨p, t, rfl⟩
    simp only [CloudSimSDNEnv.step, hst]
    rw [linkArray_of_state _ _ hst]
    rw [hcons]
    dsimp only [List.map]
    exact ⟨_, rfl⟩

/-- Bridge for the claim C10 witness: one link and one flow, every
telemetry and action call faulting. -/
def bridgeC10w : Bridge :=
  { getAllLinkIds := ["L"]
    getFlowIds := some [1]
    getFlowAvgLatency := fun _ _ => .error ()
    getFlowEndpoints := fun _ => .error ()
    getExpectedLatency := fun _ _ _ => .error ()
    getRequestedBandwidth := fun _ => .error ()
    getLinkAvgUtilization := fun _ _ => .error ()
    rerouteFlow := fun _ => .error ()
    isRunning := false
    getTime := 0 }

/-- The environment constructed over `bridgeC10w`. -/
def envC10w : CloudSimSDNEnv :=
  { bridge := bridgeC10w
    window := 5
    k := 10
    max_reroute_ratio := 3/20
    link_ids := ["L"]
    link_id_to_idx := [("L", 0)]
    initial_flow_ids := [1] }

/-- Witness for the amended claim C10: with one known link and every
per-item call faulting, the faults are neutralized to 0.0 and the step
still returns a full tuple — concretely
`([0, 0], 0, true, {time 0, [], mean 0, max 0})`. -/
theorem claim_C10_step_total_witness :
    flowLatencyValue envC10w 1 = 0
    ∧ linkUtilValue envC10w "L" = 0
    ∧ (∃ out, envC10w.step = .ok out)
    ∧ envC10w.step = .ok ([0, 0], 0, true,
        { time := 0, selected_flows := [], avg_latency := some 0
          max_utilization := 0 }) :=
  ⟨claim_C10_step_total.1 envC10w 1 rfl,
   claim_C10_step_total.2.1 envC10w "L" 0 (by with_unfolding_all rfl) rfl,
   claim_C10_step_total.2.2 envC10w [1] rfl (by with_unfolding_all decide),
   by with_unfolding_all rfl⟩
